import Mathlib

/-!
Verification development for the slavarr_py Discord request-wizard and
tracking engine.  The Python sources under `src/discord_app/` are shallowly
embedded: pure helper functions become Lean functions, callbacks with
side effects become functions from an explicit environment/state to a
trace of emitted actions, and Python floats are modelled as rationals.
-/

namespace Slavarr

/-! ## Season data (Sonarr season descriptors)

A Sonarr season entry as it appears in the `seasons` list of a series
object: a season number and a monitored flag (statistics are carried
separately and are not touched by reconciliation). -/

structure Season where
  seasonNumber : Nat
  monitored : Bool
  deriving DecidableEq, Repr

/-- Modelled from the spec: `SonarrClient.build_monitored_seasons` is invoked at
`discord_bot.py:543` (`ConfirmSeriesAddButton.callback`) but no definition of it
exists under `src/`; only the call site is present.  Spec §4.3 gives its
contract: for every season present in `seasonsSource` the output entry's
monitored flag equals `season.number ∈ selected`, and seasons absent from
`seasonsSource` are never synthesized. -/
def build_monitored_seasons (seasonsSource : List Season) (selected : List Nat) :
    List Season :=
  seasonsSource.map (fun s => { s with monitored := decide (s.seasonNumber ∈ selected) })

/-! ## SonarrClient surface relevant to the confirm flow

`services/sonarr.py` defines `SonarrClient` with exactly the following
methods (transcribed from the `def` lines of the class body), and
`add_series` (sonarr.py:197) with exactly the following parameter names. -/

def sonarrClientMethods : List String :=
  ["__init__", "search_series", "list_quality_profiles", "list_root_folders",
   "get_series_by_tvdb_or_tmdb", "get_queue", "get_history_for_series",
   "summarize_series_progress", "summarize_queue_for_series", "get_series_by_id",
   "update_series", "set_quality_profile", "get_episode_list",
   "pick_missing_aired_monitored_episode", "get_releases_for_episode",
   "post_release", "trigger_series_search", "add_series", "get_existing_by_ids",
   "close"]

def addSeriesParams : List String :=
  ["self", "tvdb_id", "tmdb_id", "quality_profile_id", "root_folder_path",
   "monitored"]

/-- Keyword arguments passed to `bot.sonarr.add_series(...)` by
`ConfirmSeriesAddButton.callback` (discord_bot.py:563-570). -/
def confirmAddSeriesKwargs : List String :=
  ["tvdb_id", "tmdb_id", "quality_profile_id", "root_folder_path", "monitored",
   "seasons_override"]

/-- The payload dict built by `SonarrClient.add_series` (sonarr.py:208-220)
from the lookup result: the `seasons` field is taken verbatim from the
looked-up series, independent of any caller-side season selection. -/
structure LookupSeries where
  tvdbId : Option Nat
  title : String
  titleSlug : Option String
  seasons : List Season
  deriving Repr

structure AddSeriesPayload where
  tvdbId : Option Nat
  title : String
  qualityProfileId : Nat
  titleSlug : Option String
  seasons : List Season
  rootFolderPath : String
  monitored : Bool
  deriving Repr

def addSeriesPayload (series : LookupSeries) (quality_profile_id : Nat)
    (root_folder_path : String) (monitored : Bool) : AddSeriesPayload :=
  { tvdbId := series.tvdbId
    title := series.title
    qualityProfileId := quality_profile_id
    titleSlug := series.titleSlug
    seasons := series.seasons
    rootFolderPath := root_folder_path
    monitored := monitored }

/-! ## Claim C1 -/

/-- C1.  Season reconciliation: for every `seasonsSource` and every selected
set of season numbers, the override list has the same length as
`seasonsSource`, carries exactly the season numbers of `seasonsSource` in
order (no season is synthesized), and each output entry's monitored flag
equals membership of that season's number in the selected set.
(`build_monitored_seasons` is modelled from spec §4.3; see its doc.) -/
theorem c1_season_reconciliation (seasonsSource : List Season) (selected : List Nat) :
    (build_monitored_seasons seasonsSource selected).length = seasonsSource.length ∧
    (build_monitored_seasons seasonsSource selected).map Season.seasonNumber =
      seasonsSource.map Season.seasonNumber ∧
    ∀ p ∈ seasonsSource.zip (build_monitored_seasons seasonsSource selected),
      p.2.seasonNumber = p.1.seasonNumber ∧
      p.2.monitored = decide (p.1.seasonNumber ∈ selected) := by
  refine ⟨by simp [build_monitored_seasons], by simp [build_monitored_seasons], ?_⟩
  intro p hp
  induction seasonsSource with
  | nil => simp [build_monitored_seasons] at hp
  | cons s rest ih =>
    simp only [build_monitored_seasons, List.map_cons, List.zip_cons_cons,
      List.mem_cons] at hp
    rcases hp with h | h
    · subst h; exact ⟨rfl, rfl⟩
    · exact ih h

/-- C1 witness: the reconciliation properties evaluated at a concrete
three-season source with seasons 1 and 3 selected. -/
theorem c1_season_reconciliation_witness :
    let src := [⟨1, false⟩, ⟨2, true⟩, ⟨3, false⟩]
    (build_monitored_seasons src [1, 3]).length = src.length ∧
    (⟨2, true⟩, ⟨2, false⟩) ∈ src.zip (build_monitored_seasons src [1, 3]) ∧
    ((⟨2, false⟩ : Season).seasonNumber = (⟨2, true⟩ : Season).seasonNumber ∧
      (⟨2, false⟩ : Season).monitored = decide ((⟨2, true⟩ : Season).seasonNumber ∈ [1, 3])) := by
  refine ⟨(c1_season_reconciliation _ _).1, by decide, ?_⟩
  exact (c1_season_reconciliation [⟨1, false⟩, ⟨2, true⟩, ⟨3, false⟩] [1, 3]).2.2
    (⟨2, true⟩, ⟨2, false⟩) (by decide)

/-! ## Claim C2 -/

/-- C2.  The new-series confirm path cannot carry the season override to the
backend: `ConfirmSeriesAddButton.callback` passes a `seasons_override` keyword
argument, but `SonarrClient.add_series` accepts no such parameter (so the call
raises `TypeError`); moreover the helper `build_monitored_seasons` it calls at
discord_bot.py:543 is not a method of `SonarrClient` at all (AttributeError),
and the payload `add_series` would build takes its `seasons` field from the
lookup result, not from any override. -/
theorem c2_addseries_has_no_override :
    "seasons_override" ∈ confirmAddSeriesKwargs ∧
    "seasons_override" ∉ addSeriesParams ∧
    "build_monitored_seasons" ∉ sonarrClientMethods ∧
    (addSeriesPayload ⟨some 121361, "Example", some "example", [⟨1, true⟩, ⟨2, true⟩]⟩
        5 "/tv" true).seasons = [⟨1, true⟩, ⟨2, true⟩] := by
  refine ⟨by decide, by decide, by decide, rfl⟩

/-! ## Episode picking (`SonarrClient.pick_missing_aired_monitored_episode`)

An episode record as read from the Sonarr episode list.  Dict lookups with
defaults (`ep.get("monitored", True)`, `ep.get("hasFile")`,
`ep.get("seasonNumber", 0)`, `ep.get("episodeNumber", 0)`) become fields with
those defaults; `airDateUtc` is the parsed UTC timestamp, with `none` standing
for a missing or unparseable date (both cause the `continue` in the source). -/

structure Episode where
  id : Nat
  monitored : Bool := true
  hasFile : Bool := false
  airDateUtc : Option Int := none
  seasonNumber : Nat := 0
  episodeNumber : Nat := 0
  deriving DecidableEq, Repr

def episodeKey (e : Episode) : Nat × Nat := (e.seasonNumber, e.episodeNumber)

/-- Python tuple comparison `(seasonNumber, episodeNumber)` as a strict
lexicographic order. -/
def keyLt (a b : Nat × Nat) : Bool :=
  decide (a.1 < b.1 ∨ (a.1 = b.1 ∧ a.2 < b.2))

/-- The candidate filter of sonarr.py:153-166: monitored, no file, and a
parseable air date not after `now`. -/
def eligibleEpisode (now : Int) (ep : Episode) : Bool :=
  ep.monitored && !ep.hasFile &&
    (match ep.airDateUtc with
     | some t => decide (t ≤ now)
     | none => false)

def airedCandidates (now : Int) (eps : List Episode) : List Episode :=
  eps.filter (eligibleEpisode now)

/-- Python's `candidates.sort(key=(seasonNumber, episodeNumber), reverse=True)`
is a stable descending sort, so `candidates[0]` is the first element in
original order among those with the lexicographically greatest key; a left
fold keeping the incumbent on ties computes exactly that element. -/
def bestCandidateStep (acc : Option Episode) (e : Episode) : Option Episode :=
  match acc with
  | none => some e
  | some b => if keyLt (episodeKey b) (episodeKey e) then some e else some b

def pick_missing_aired_monitored_episode (now : Int) (episodes : List Episode) :
    Option Episode :=
  (airedCandidates now episodes).foldl bestCandidateStep none

/-! ## Release-fallback resolver (`maybe_offer_release_picker_for_series`) -/

structure Release where
  qualityName : String
  guid : String
  indexerId : Nat
  deriving DecidableEq, Repr

inductive SeriesPickerOutcome
  | trivialSuccess
  | matchedSuccess
  | searchTriggered
  | searchTriggerFailed
  | pickerOffered (opts : List Release)
  deriving DecidableEq, Repr

/-- Embeds discord_bot.py:970-1029.  `releases` is the (possibly empty, after a
swallowed fetch exception) result of `get_releases_for_episode`; `trig` says
whether `trigger_series_search` succeeds.  Returns the outcome together with
whether the release fetch was attempted at all. -/
def maybe_offer_release_picker_for_series (episode : Option Episode)
    (releases : List Release) (trig : Bool) (expected : String) :
    SeriesPickerOutcome × Bool :=
  match episode with
  | none => (.trivialSuccess, false)
  | some _ =>
    let ms := releases.filter (fun r => r.qualityName.toLower == expected.toLower)
    if ms.isEmpty = false then (.matchedSuccess, true)
    else
      let top := releases.take 25
      if top.isEmpty then
        if trig then (.searchTriggered, true) else (.searchTriggerFailed, true)
      else (.pickerOffered top, true)

/-! Order facts about the `(season, episode)` key. -/

theorem keyLt_irrefl (k : Nat × Nat) : keyLt k k = false := by
  simp [keyLt]

theorem keyLt_of_not_lt_of_lt {e x b : Nat × Nat}
    (h1 : keyLt e x = false) (h2 : keyLt b x = true) : keyLt e b = false := by
  simp only [keyLt, decide_eq_false_iff_not, decide_eq_true_eq] at *
  omega

theorem keyLt_of_not_lt_of_not_lt {e b x : Nat × Nat}
    (h1 : keyLt e b = false) (h2 : keyLt b x = false) : keyLt e x = false := by
  simp only [keyLt, decide_eq_false_iff_not, decide_eq_true_eq] at *
  omega

theorem foldl_bestCandidateStep_spec (l : List Episode) :
    ∀ (acc : Option Episode) (e : Episode),
      l.foldl bestCandidateStep acc = some e →
      (acc = some e ∨ e ∈ l) ∧
      (∀ b, acc = some b → keyLt (episodeKey e) (episodeKey b) = false) ∧
      (∀ c ∈ l, keyLt (episodeKey e) (episodeKey c) = false) := by
  induction l with
  | nil =>
    intro acc e h
    simp only [List.foldl_nil] at h
    refine ⟨Or.inl h, ?_, by simp⟩
    rintro b hb
    rw [h] at hb
    cases hb
    exact keyLt_irrefl _
  | cons x xs ih =>
    intro acc e h
    simp only [List.foldl_cons] at h
    obtain ⟨hmem, hacc, hall⟩ := ih (bestCandidateStep acc x) e h
    have hex : keyLt (episodeKey e) (episodeKey x) = false ∧
        (∀ b, acc = some b → keyLt (episodeKey e) (episodeKey b) = false) ∧
        (bestCandidateStep acc x = some e → acc = some e ∨ e = x) := by
      cases acc with
      | none =>
        have := hacc x rfl
        exact ⟨this, by rintro b ⟨⟩, fun hs => Or.inr (by cases hs; rfl)⟩
      | some b =>
        by_cases hbx : keyLt (episodeKey b) (episodeKey x) = true
        · have hstep : bestCandidateStep (some b) x = some x := by
            simp [bestCandidateStep, hbx]
          rw [hstep] at hmem hacc h
          have hx := hacc x rfl
          refine ⟨hx, ?_, ?_⟩
          · rintro b' hb'
            cases hb'
            exact keyLt_of_not_lt_of_lt hx hbx
          · intro hs
            rw [hstep] at hs
            exact Or.inr (by cases hs; rfl)
        · have hbx' : keyLt (episodeKey b) (episodeKey x) = false :=
            Bool.eq_false_iff.mpr hbx
          have hstep : bestCandidateStep (some b) x = some b := by
            simp [bestCandidateStep, hbx']
          rw [hstep] at hmem hacc h
          have hb := hacc b rfl
          refine ⟨keyLt_of_not_lt_of_not_lt hb hbx', ?_, ?_⟩
          · rintro b' hb'
            cases hb'
            exact hb
          · intro hs
            rw [hstep] at hs
            exact Or.inl hs
    refine ⟨?_, hex.2.1, ?_⟩
    · rcases hmem with hs | hxs
      · rcases hex.2.2 hs with h' | h'
        · exact Or.inl h'
        · exact Or.inr (by rw [h']; exact List.mem_cons_self _ _)
      · exact Or.inr (List.mem_cons_of_mem _ hxs)
    · intro c hc
      rcases List.mem_cons.mp hc with rfl | hcx
      · exact hex.1
      · exact hall c hcx

theorem foldl_bestCandidateStep_ne_none (l : List Episode) :
    ∀ b : Episode, l.foldl bestCandidateStep (some b) ≠ none := by
  induction l with
  | nil => intro b h; cases h
  | cons x xs ih =>
    intro b
    simp only [List.foldl_cons, bestCandidateStep]
    by_cases hbx : keyLt (episodeKey b) (episodeKey x) = true
    · simp only [hbx, if_true]; exact ih x
    · simp only [Bool.eq_false_iff.mpr hbx, if_false]
      exact ih b

/-! ## Claim C4 -/

def epSpecial : Episode := ⟨1, true, false, some 100, 0, 1⟩
def epRegular : Episode := ⟨2, true, false, some 50, 1, 1⟩

/-- C4 counterexample: with a special (season 0) episode that aired at time
100 and a season-1 episode that aired earlier (time 50), both monitored,
file-absent and aired before `now = 200`, the code picks the season-1 episode
— not the most-recently-aired one, which is eligible and aired strictly
later.  The claim's primary most-recently-aired ordering is therefore not
what the code implements. -/
theorem c4_counterexample_not_most_recent :
    pick_missing_aired_monitored_episode 200 [epSpecial, epRegular] = some epRegular ∧
    eligibleEpisode 200 epSpecial = true ∧
    epSpecial.airDateUtc = some 100 ∧ epRegular.airDateUtc = some 50 ∧
    (50 : Int) < 100 := by
  refine ⟨?_, by decide, rfl, rfl, by decide⟩
  decide

/-- C4 (amended).  The representative episode is the one with the
lexicographically greatest `(seasonNumber, episodeNumber)` key among the
monitored, file-absent, already-aired episodes (air date is only an
eligibility filter, not the selection order; earliest listed wins full ties);
if no such episode exists the pick is `none` and the resolver reports success
without fetching releases. -/
theorem c4_pick_highest_season_episode (now : Int) (eps : List Episode) :
    (pick_missing_aired_monitored_episode now eps = none ↔
        airedCandidates now eps = []) ∧
    (∀ e, pick_missing_aired_monitored_episode now eps = some e →
        e ∈ airedCandidates now eps ∧
        ∀ c ∈ airedCandidates now eps,
          keyLt (episodeKey e) (episodeKey c) = false) ∧
    (∀ rels trig expected,
        pick_missing_aired_monitored_episode now eps = none →
        maybe_offer_release_picker_for_series
            (pick_missing_aired_monitored_episode now eps) rels trig expected =
          (SeriesPickerOutcome.trivialSuccess, false)) := by
  refine ⟨⟨?_, ?_⟩, ?_, ?_⟩
  · intro h
    cases hc : airedCandidates now eps with
    | nil => rfl
    | cons x xs =>
      exfalso
      unfold pick_missing_aired_monitored_episode at h
      rw [hc] at h
      simp only [List.foldl_cons, bestCandidateStep] at h
      exact foldl_bestCandidateStep_ne_none xs x h
  · intro h
    unfold pick_missing_aired_monitored_episode
    rw [h]
    rfl
  · intro e he
    obtain ⟨hmem, -, hall⟩ :=
      foldl_bestCandidateStep_spec (airedCandidates now eps) none e he
    refine ⟨?_, hall⟩
    rcases hmem with h | h
    · cases h
    · exact h
  · intro rels trig expected h
    rw [h]
    rfl

/-- C4 witness: the amended theorem instantiated at the two concrete episodes
above (confirming maximality of the chosen key) and at an empty episode list
(confirming the trivial-success resolver path). -/
theorem c4_pick_highest_season_episode_witness :
    epRegular ∈ airedCandidates 200 [epSpecial, epRegular] ∧
    keyLt (episodeKey epRegular) (episodeKey epSpecial) = false ∧
    maybe_offer_release_picker_for_series
        (pick_missing_aired_monitored_episode 200 []) [] true "HD-1080p" =
      (SeriesPickerOutcome.trivialSuccess, false) := by
  obtain ⟨-, h2, -⟩ := c4_pick_highest_season_episode 200 [epSpecial, epRegular]
  obtain ⟨hmem, hmax⟩ := h2 epRegular (by decide)
  refine ⟨hmem, hmax epSpecial (by decide), ?_⟩
  exact (c4_pick_highest_season_episode 200 []).2.2 [] true "HD-1080p" (by decide)

/-! ## Candidate de-duplication flags

`ContentCommands.movie_add` (discord_bot.py:272-274) merges the Radarr-existing
and Plex-existing id sets with a union and `MovieSelect` marks a result iff its
tmdb id is in that merged set; `ContentCommands.series_add`
(discord_bot.py:336-339) merges with intersections instead, and `SeriesSelect`
(discord_bot.py:168-170) marks a result iff its tvdb id is in the merged tvdb
set or (when its tmdb id is truthy) its tmdb id is in the merged tmdb set. -/

def movieMergedSet (already plexAlready : Finset Nat) : Finset Nat :=
  already ∪ plexAlready

def seriesMergedSet (already plexAlready : Finset Nat) : Finset Nat :=
  already ∩ plexAlready

def movieExistsFlag (merged : Finset Nat) (tmdbId : Nat) : Bool :=
  decide (tmdbId ∈ merged)

def seriesExistsFlag (mergedTvdb mergedTmdb : Finset Nat)
    (tvdbId tmdbId : Option Nat) : Bool :=
  (match tvdbId with
   | some t => decide (t ∈ mergedTvdb)
   | none => false) ||
  (match tmdbId with
   | some t => if t ≠ 0 then decide (t ∈ mergedTmdb) else false
   | none => false)

/-! ## Claim C6 -/

/-- C6.  De-duplication asymmetry: a movie candidate is flagged iff its id is
in the union of the collection-existing and library-existing sets, while a
series candidate (with only a tvdb id) is flagged iff its id is in the
intersection of the two sets; in particular a series id in the collection set
but not the library set gives flag = false. -/
theorem c6_dedup_asymmetry :
    (∀ (collection library : Finset Nat) (tmdbId : Nat),
        movieExistsFlag (movieMergedSet collection library) tmdbId =
          (decide (tmdbId ∈ collection) || decide (tmdbId ∈ library))) ∧
    (∀ (cTvdb lTvdb mergedTmdb : Finset Nat) (tvdb : Nat),
        seriesExistsFlag (seriesMergedSet cTvdb lTvdb) mergedTmdb (some tvdb) none =
          (decide (tvdb ∈ cTvdb) && decide (tvdb ∈ lTvdb))) ∧
    (∀ (cTvdb lTvdb : Finset Nat) (tvdb : Nat), tvdb ∈ cTvdb → tvdb ∉ lTvdb →
        seriesExistsFlag (seriesMergedSet cTvdb lTvdb) ∅ (some tvdb) none = false) := by
  refine ⟨?_, ?_, ?_⟩
  · intro c l t
    by_cases h1 : t ∈ c <;> by_cases h2 : t ∈ l <;>
      simp [movieExistsFlag, movieMergedSet, Finset.mem_union, h1, h2]
  · intro c l m t
    by_cases h1 : t ∈ c <;> by_cases h2 : t ∈ l <;>
      simp [seriesExistsFlag, seriesMergedSet, Finset.mem_inter, h1, h2]
  · intro c l t hc hl
    simp [seriesExistsFlag, seriesMergedSet, Finset.mem_inter, hl]

/-- C6 witness: id 7 in the collection set but not the library set — the movie
flag (union) is true while the series flag (intersection) is false. -/
theorem c6_dedup_asymmetry_witness :
    movieExistsFlag (movieMergedSet {7} ∅) 7 =
      (decide (7 ∈ ({7} : Finset Nat)) || decide (7 ∈ (∅ : Finset Nat))) ∧
    seriesExistsFlag (seriesMergedSet {7} ∅) ∅ (some 7) none = false := by
  exact ⟨c6_dedup_asymmetry.1 {7} ∅ 7,
    c6_dedup_asymmetry.2.2 {7} ∅ 7 (by decide) (by decide)⟩

/-! ## Progress bar (`_progress_bar`, discord_bot.py:585-590)

Floats are modelled as rationals; Python's `round` (banker's rounding,
half-to-even) is modelled exactly on rationals by `pyRound`. -/

def pyRound (q : ℚ) : ℤ :=
  if q - ⌊q⌋ < 1 / 2 then ⌊q⌋
  else if 1 / 2 < q - ⌊q⌋ then ⌊q⌋ + 1
  else if ⌊q⌋ % 2 = 0 then ⌊q⌋ else ⌊q⌋ + 1

def repChar (c : Char) (n : Nat) : String :=
  String.mk (List.replicate n c)

def clampPct (p : ℚ) : ℚ := max 0 (min 100 p)

def barFilled (p : ℚ) (width : Nat) : Nat :=
  (pyRound (clampPct p / 100 * width)).toNat

def progressBar (pct : Option ℚ) (width : Nat) : String :=
  match pct with
  | none => repChar '∙' width
  | some p =>
    String.mk (List.replicate (barFilled p width) '█' ++
      List.replicate (width - barFilled p width) '░')

def filledCells (s : String) : Nat :=
  (s.toList.filter (fun c => c == '█')).length

theorem barFilled_zero : barFilled 0 20 = 0 := by
  have hc : clampPct 0 = 0 := by unfold clampPct; norm_num
  unfold barFilled pyRound
  rw [hc]
  norm_num

theorem barFilled_hundred : barFilled 100 20 = 20 := by
  have hc : clampPct 100 = 100 := by unfold clampPct; norm_num
  unfold barFilled pyRound
  rw [hc]
  norm_num
  decide

theorem barFilled_57 : barFilled 57 20 = 11 := by
  have hc : clampPct 57 = 57 := by unfold clampPct; norm_num
  have hf : ⌊(57 / 5 : ℚ)⌋ = 11 := by
    rw [Int.floor_eq_iff]
    norm_num
  unfold barFilled pyRound
  rw [hc]
  norm_num [hf]
  decide

/-! ## Claim C7 -/

/-- C7.  Progress bar at width 20: all-empty for pct = 0, all-filled for
pct = 100, a distinct all-empty placeholder for `None`, exactly
round(57/100·20) = 11 filled cells for pct = 57, and any percentage is clamped
into [0, 100] before scaling. -/
theorem c7_progress_bar :
    progressBar (some 0) 20 = repChar '░' 20 ∧
    progressBar (some 100) 20 = repChar '█' 20 ∧
    progressBar none 20 = repChar '∙' 20 ∧
    progressBar none 20 ≠ progressBar (some 0) 20 ∧
    filledCells (progressBar (some 57) 20) = 11 ∧
    pyRound (57 / 100 * 20) = 11 ∧
    ∀ p : ℚ, 0 ≤ clampPct p ∧ clampPct p ≤ 100 ∧
      progressBar (some p) 20 = progressBar (some (clampPct p)) 20 := by
  refine ⟨?_, ?_, rfl, ?_, ?_, ?_, ?_⟩
  · simp [progressBar, barFilled_zero, repChar]
  · simp [progressBar, barFilled_hundred, repChar]
  · simp only [progressBar, barFilled_zero, repChar, List.replicate_zero,
      List.nil_append, Nat.sub_zero]
    decide
  · simp only [progressBar, barFilled_57]
    decide
  · have hv : (57 : ℚ) / 100 * 20 = 57 / 5 := by norm_num
    have hf : ⌊(57 / 5 : ℚ)⌋ = 11 := by
      rw [Int.floor_eq_iff]
      norm_num
    unfold pyRound
    rw [hv, hf]
    norm_num
  · intro p
    have h0 : (0 : ℚ) ≤ clampPct p := le_max_left _ _
    have h100 : clampPct p ≤ 100 := max_le (by norm_num) (min_le_left _ _)
    refine ⟨h0, h100, ?_⟩
    have hc : clampPct (clampPct p) = clampPct p := by
      show max 0 (min 100 (clampPct p)) = clampPct p
      rw [min_eq_right h100, max_eq_right h0]
    simp only [progressBar, barFilled, hc]

/-- C7 witness: the clamping conjunct of `c7_progress_bar` evaluated at the
out-of-range percentage 150. -/
theorem c7_progress_bar_witness :
    0 ≤ clampPct 150 ∧ clampPct 150 ≤ 100 ∧
    progressBar (some 150) 20 = progressBar (some (clampPct 150)) 20 :=
  c7_progress_bar.2.2.2.2.2.2 150

/-! ## Series status rendering (`_render_series_embed`, discord_bot.py:653-697)

Series objects and queue items as read from Sonarr.  `series.get("statistics",
{}) or {}` followed by `.get(key, default)` becomes an optional statistics
record whose absence yields the defaults. -/

structure SeriesStats where
  episodeFileCount : Nat := 0
  totalEpisodeCount : Nat := 0
  percentOfEpisodes : ℚ := 0
  deriving DecidableEq, Repr

structure SeriesObj where
  id : Nat
  title : String
  statistics : Option SeriesStats := none
  deriving DecidableEq, Repr

def summarize_series_progress (s : SeriesObj) : SeriesStats :=
  s.statistics.getD {}

structure QueueItem where
  seriesId : Option Nat := none
  title : Option String := none
  status : Option String := none
  downloadId : Option String := none
  size : Option ℚ := none
  sizeleft : Option ℚ := none
  timeleft : Option String := none
  protocol : Option String := none
  deriving DecidableEq, Repr

/-- The per-item projection built by `summarize_queue_for_series`
(sonarr.py:98-110): every modelled field except the `seriesId` used for the
filter. -/
structure QueueSummary where
  title : Option String
  status : Option String
  downloadId : Option String
  size : Option ℚ
  sizeleft : Option ℚ
  timeleft : Option String
  protocol : Option String
  deriving DecidableEq, Repr

def summarize_queue_for_series (qItems : List QueueItem) (seriesId : Nat) :
    List QueueSummary :=
  (qItems.filter (fun it => it.seriesId == some seriesId)).map
    (fun it => ⟨it.title, it.status, it.downloadId, it.size, it.sizeleft,
      it.timeleft, it.protocol⟩)

/-- The percentage used by `_render_series_embed` (discord_bot.py:663):
`stats.get("percentOfEpisodes") or (100.0 * have / total if total else 0.0)`
— the Python `or` takes the fallback when the stored percentage is 0.0. -/
def seriesPct (s : SeriesObj) : ℚ :=
  let stats := summarize_series_progress s
  if stats.percentOfEpisodes = 0 then
    if stats.totalEpisodeCount ≠ 0 then
      100 * (stats.episodeFileCount : ℚ) / (stats.totalEpisodeCount : ℚ)
    else 0
  else stats.percentOfEpisodes

/-- The `done` component of `_render_series_embed`'s return value: a missing
series is done; an active queue for the series returns done = false before
the percentage is consulted (discord_bot.py:674-693); otherwise done is
pct ≥ 99.9 (discord_bot.py:695). -/
def render_series_embed_done (series : Option SeriesObj) (qItems : List QueueItem) :
    Bool :=
  match series with
  | none => true
  | some s =>
    let active := summarize_queue_for_series qItems s.id
    if active.isEmpty then decide (seriesPct s ≥ 99.9) else false

/-! ## Claim C3 -/

def exSeriesFull : SeriesObj := ⟨1, "Example", some ⟨10, 10, 100⟩⟩
def exActiveQueueItem : QueueItem := { seriesId := some 1, status := some "downloading" }

/-- C3 counterexample: a series at 100 percent (≥ 99.9) whose transfer queue
still holds an active entry renders done = false, not done = true — the
active-queue check precedes the terminal-percentage check. -/
theorem c3_counterexample_active_queue :
    seriesPct exSeriesFull ≥ 99.9 ∧
    render_series_embed_done (some exSeriesFull) [exActiveQueueItem] = false := by
  constructor
  · have h : seriesPct exSeriesFull = 100 := rfl
    rw [h]
    norm_num
  · rfl

/-- C3 (amended).  One render step of the series status embed reports
done = true iff at least 99.9 percent of monitored episodes have files AND no
transfer-queue entry for the series is active; an active queue entry forces
done = false regardless of the percentage. -/
theorem c3_series_terminal_amended (s : SeriesObj) (q : List QueueItem) :
    (summarize_queue_for_series q s.id = [] →
      (render_series_embed_done (some s) q = true ↔ seriesPct s ≥ 99.9)) ∧
    (summarize_queue_for_series q s.id ≠ [] →
      render_series_embed_done (some s) q = false) := by
  constructor
  · intro hq
    simp [render_series_embed_done, hq]
  · intro hq
    have hne : (summarize_queue_for_series q s.id).isEmpty = false := by
      cases hqq : summarize_queue_for_series q s.id with
      | nil => exact absurd hqq hq
      | cons x xs => rfl
    simp [render_series_embed_done, hne]

/-- C3 witness: the amended terminal condition evaluated at the concrete
100-percent series with an empty queue (done = true). -/
theorem c3_series_terminal_amended_witness :
    render_series_embed_done (some exSeriesFull) [] = true := by
  refine ((c3_series_terminal_amended exSeriesFull []).1 rfl).mpr ?_
  have h : seriesPct exSeriesFull = 100 := rfl
  rw [h]
  norm_num

/-! ## Confirm and quality-select callbacks

`ConfirmSeriesAddButton.callback` (discord_bot.py:534-580) and
`QualitySelect.callback` (discord_bot.py:849-913) are embedded as functions
from the wizard state and an environment of backend-call results to the list
of actions they perform, in source order.  Awaited calls other than the
add/update submissions are modelled as non-throwing.  The reconciliation
helper at discord_bot.py:543 follows the spec-modelled
`build_monitored_seasons` above; the per-season search trigger at line 557 is
inside its own swallow-all handler, so its action is recorded and its failure
ignored. -/

inductive Msg
  | chooseQualityFirst
  | couldNotLoadExisting
  | seriesUpdated
  | seriesAddedTracking
  | addUpdateFailed
  | movieAddedTracking
  | addFailed
  deriving DecidableEq, Repr

inductive Action
  | callGetSeriesById
  | callUpdateSeries
  | callSeasonSearch (season : Nat)
  | callAddSeries
  | callAddMovie
  | send (m : Msg)
  | startTracking
  | releasePickerCheck
  deriving DecidableEq, Repr

structure WizardState where
  tvdbId : Option Nat
  tmdbId : Option Nat
  seasonsSource : List Season
  selectedQualityId : Option Nat
  selectedSeasons : List Nat
  existingId : Option Nat
  deriving DecidableEq, Repr

/-- Python truthiness of `view.selected_quality_id` at discord_bot.py:539:
`None` and `0` are falsy. -/
def qualityIdTruthy : Option Nat → Bool
  | none => false
  | some n => n != 0

structure ConfirmEnv where
  getSeriesById : Option SeriesObj
  updateSeries : Except Unit Unit
  deriving Repr

def confirmSeriesAddCallback (st : WizardState) (env : ConfirmEnv) : List Action :=
  if qualityIdTruthy st.selectedQualityId = false then
    [.send .chooseQualityFirst]
  else
    match st.existingId with
    | some _ =>
      match env.getSeriesById with
      | none => [.callGetSeriesById, .send .couldNotLoadExisting]
      | some _ =>
        match env.updateSeries with
        | .error _ => [.callGetSeriesById, .callUpdateSeries, .send .addUpdateFailed]
        | .ok _ =>
          [.callGetSeriesById, .callUpdateSeries] ++
            st.selectedSeasons.map (fun sn => .callSeasonSearch sn) ++
            [.send .seriesUpdated]
    | none =>
      -- The call at discord_bot.py:563 passes `seasons_override=`, which
      -- `SonarrClient.add_series` (sonarr.py:197) does not accept, so the
      -- attempted call raises inside the try and the except branch reports
      -- the failure; no tracking view is started.
      [.callAddSeries, .send .addUpdateFailed]

structure MovieAddEnv where
  addMovie : Except Unit Nat
  deriving Repr

/-- Movie branch of `QualitySelect.callback` (discord_bot.py:857-874). -/
def qualitySelectMovieCallback (env : MovieAddEnv) : List Action :=
  match env.addMovie with
  | .error _ => [.callAddMovie, .send .addFailed]
  | .ok _ => [.callAddMovie, .send .movieAddedTracking, .startTracking,
      .releasePickerCheck]

structure SeriesAddEnv where
  addSeries : Except Unit Nat
  deriving Repr

/-- Series branch of `QualitySelect.callback` (discord_bot.py:875-908); the
representative-episode lookup sits in a swallow-all handler and is subsumed
in the release-picker check. -/
def qualitySelectSeriesCallback (env : SeriesAddEnv) : List Action :=
  match env.addSeries with
  | .error _ => [.callAddSeries, .send .addFailed]
  | .ok _ => [.callAddSeries, .send .seriesAddedTracking, .startTracking,
      .releasePickerCheck]

/-! ## Claim C5 -/

/-- C5.  Confirm validation: with the quality-tier field unset, the confirm
callback emits only the inline validation message — no backend add or update
call, no tracking start, and no action that deactivates the wizard view, so
the session stays available for further input — for every season selection. -/
theorem c5_confirm_requires_quality (st : WizardState) (env : ConfirmEnv)
    (h : st.selectedQualityId = none) :
    confirmSeriesAddCallback st env = [.send .chooseQualityFirst] ∧
    ∀ a ∈ confirmSeriesAddCallback st env,
      a ≠ .callAddSeries ∧ a ≠ .callUpdateSeries ∧ a ≠ .startTracking := by
  have hq : qualityIdTruthy st.selectedQualityId = false := by
    rw [h]; rfl
  constructor
  · simp [confirmSeriesAddCallback, hq]
  · intro a ha
    simp only [confirmSeriesAddCallback, hq, if_pos, List.mem_singleton] at ha
    subst ha
    exact ⟨by simp, by simp, by simp⟩

def exWizardNoQuality : WizardState :=
  ⟨some 121361, none, [⟨1, true⟩], none, [1], none⟩

def exConfirmEnv : ConfirmEnv := ⟨none, Except.ok ()⟩

/-- C5 witness: the validation behaviour at a concrete session whose quality
tier is unset but whose season set is non-empty. -/
theorem c5_confirm_requires_quality_witness :
    confirmSeriesAddCallback exWizardNoQuality exConfirmEnv =
      [Action.send Msg.chooseQualityFirst] :=
  (c5_confirm_requires_quality exWizardNoQuality exConfirmEnv rfl).1

/-! ## Claim C8 -/

/-- C8.  Submission atomicity on failure: whenever the backend add or update
call of a submission raises — the movie add, the quality-wizard series add, a
series update on an existing item, or the confirm-path new-series add (which
always raises, see C2) — the callback reports the failure, performs the
failing call exactly once (no retry), and starts no tracking loop. -/
theorem c8_submission_failure_terminal :
    (∀ env : MovieAddEnv, env.addMovie = .error () →
        (qualitySelectMovieCallback env).count .callAddMovie = 1 ∧
        .send .addFailed ∈ qualitySelectMovieCallback env ∧
        .startTracking ∉ qualitySelectMovieCallback env) ∧
    (∀ env : SeriesAddEnv, env.addSeries = .error () →
        (qualitySelectSeriesCallback env).count .callAddSeries = 1 ∧
        .send .addFailed ∈ qualitySelectSeriesCallback env ∧
        .startTracking ∉ qualitySelectSeriesCallback env) ∧
    (∀ (st : WizardState) (env : ConfirmEnv) (eid : Nat) (sobj : SeriesObj),
        qualityIdTruthy st.selectedQualityId = true →
        st.existingId = some eid →
        env.getSeriesById = some sobj →
        env.updateSeries = .error () →
        (confirmSeriesAddCallback st env).count .callUpdateSeries = 1 ∧
        .send .addUpdateFailed ∈ confirmSeriesAddCallback st env ∧
        .startTracking ∉ confirmSeriesAddCallback st env) ∧
    (∀ (st : WizardState) (env : ConfirmEnv),
        qualityIdTruthy st.selectedQualityId = true →
        st.existingId = none →
        (confirmSeriesAddCallback st env).count .callAddSeries = 1 ∧
        .send .addUpdateFailed ∈ confirmSeriesAddCallback st env ∧
        .startTracking ∉ confirmSeriesAddCallback st env) := by
  refine ⟨?_, ?_, ?_, ?_⟩
  · intro env h
    simp [qualitySelectMovieCallback, h]
  · intro env h
    simp [qualitySelectSeriesCallback, h]
  · intro st env eid sobj hq hex hget hupd
    simp [confirmSeriesAddCallback, hq, hex, hget, hupd]
  · intro st env hq hex
    simp [confirmSeriesAddCallback, hq, hex]

def exWizardNewSeries : WizardState :=
  ⟨some 121361, none, [⟨1, true⟩], some 5, [1], none⟩

/-- C8 witness: the three failing-submission shapes evaluated at concrete
environments whose add/update results are errors. -/
theorem c8_submission_failure_terminal_witness :
    Action.startTracking ∉ qualitySelectMovieCallback ⟨.error ()⟩ ∧
    Action.startTracking ∉ qualitySelectSeriesCallback ⟨.error ()⟩ ∧
    Action.send Msg.addUpdateFailed ∈
      confirmSeriesAddCallback exWizardNewSeries ⟨none, .error ()⟩ := by
  refine ⟨(c8_submission_failure_terminal.1 ⟨.error ()⟩ rfl).2.2,
    (c8_submission_failure_terminal.2.1 ⟨.error ()⟩ rfl).2.2,
    (c8_submission_failure_terminal.2.2.2 exWizardNewSeries ⟨none, .error ()⟩
      rfl rfl).2.1⟩

/-! ## Tracking loop (`start_auto_update._loop`, discord_bot.py:723-735 and
786-797)

The loop body is identical for movies and series:

```
it = 0
while it < max_iters and not self._stopped:
    emb, done = render(...)
    try: edit(...) except: return
    if done: return
    it += 1
    sleep(interval_sec)
```

The asynchronous inputs of iteration `it` — the stop flag as observed at the
top of the loop, whether the message edit succeeds, and the rendered done
flag — are modelled as functions of the iteration index; the fuel argument is
`max_iters - it`.  The result is the number of loop-body iterations executed
(renders performed) and the exit reason. -/

inductive ExitReason
  | budget
  | stopFlag
  | aborted
  | done
  deriving DecidableEq, Repr

def loopGo (stopped editOk rdone : Nat → Bool) : Nat → Nat → Nat × ExitReason
  | _, 0 => (0, .budget)
  | it, r + 1 =>
    if stopped it then (0, .stopFlag)
    else if editOk it = false then (1, .aborted)
    else if rdone it then (1, .done)
    else
      let p := loopGo stopped editOk rdone (it + 1) r
      (p.1 + 1, p.2)

def start_auto_update_loop (maxIters : Nat) (stopped editOk rdone : Nat → Bool) :
    Nat × ExitReason :=
  loopGo stopped editOk rdone 0 maxIters

/-- Defaults of `start_auto_update(interval_sec=10, max_iters=30)`. -/
def trackDefaultIntervalSec : Nat := 10

def trackDefaultMaxIters : Nat := 30

theorem loopGo_fst_le (stopped editOk rdone : Nat → Bool) :
    ∀ (r it : Nat), (loopGo stopped editOk rdone it r).1 ≤ r := by
  intro r
  induction r with
  | zero => intro it; simp [loopGo]
  | succ n ih =>
    intro it
    unfold loopGo
    by_cases hs : stopped it
    · simp [hs]
    · by_cases he : editOk it = false
      · simp [hs, he]
      · by_cases hd : rdone it
        · simp [hs, he, hd]
        · simp only [hs, he, hd, if_false, if_neg, Bool.not_eq_false]
          simp only [if_neg hs, he, Bool.false_eq_true, if_false, hd, if_neg]
          exact Nat.succ_le_succ (ih (it + 1))

/-! ## Claim C9 -/

/-- C9.  Tracking-loop bound: the polling loop performs at most `max_iters`
iterations (so with the default 30 iterations at the default 10-second
interval the total sleep budget is at most 300 seconds) even if the subject
never completes, and at any iteration it exits immediately when the stop flag
is observed, when the message edit fails, or when the render reports done. -/
theorem c9_tracking_loop_bound (maxIters : Nat) (stopped editOk rdone : Nat → Bool) :
    (start_auto_update_loop maxIters stopped editOk rdone).1 ≤ maxIters ∧
    (start_auto_update_loop maxIters stopped editOk rdone).1 *
        trackDefaultIntervalSec ≤ maxIters * trackDefaultIntervalSec ∧
    (start_auto_update_loop trackDefaultMaxIters stopped editOk rdone).1 *
        trackDefaultIntervalSec ≤ 300 ∧
    (∀ it r, stopped it = true →
        loopGo stopped editOk rdone it (r + 1) = (0, .stopFlag)) ∧
    (∀ it r, stopped it = false → editOk it = false →
        loopGo stopped editOk rdone it (r + 1) = (1, .aborted)) ∧
    (∀ it r, stopped it = false → editOk it = true → rdone it = true →
        loopGo stopped editOk rdone it (r + 1) = (1, .done)) := by
  refine ⟨loopGo_fst_le _ _ _ _ _, ?_, ?_, ?_, ?_, ?_⟩
  · exact Nat.mul_le_mul_right _ (loopGo_fst_le _ _ _ _ _)
  · have h := loopGo_fst_le stopped editOk rdone trackDefaultMaxIters 0
    calc (start_auto_update_loop trackDefaultMaxIters stopped editOk rdone).1 *
          trackDefaultIntervalSec
        ≤ trackDefaultMaxIters * trackDefaultIntervalSec :=
          Nat.mul_le_mul_right _ h
      _ = 300 := rfl
  · intro it r hs
    simp [loopGo, hs]
  · intro it r hs he
    simp [loopGo, hs, he]
  · intro it r hs he hd
    simp [loopGo, hs, he, hd]

/-- C9 witness: at the default budget with a subject that never completes the
loop performs at most 30 iterations, and each early-exit shape evaluated at
iteration 0 with one unit of fuel remaining. -/
theorem c9_tracking_loop_bound_witness :
    (start_auto_update_loop trackDefaultMaxIters
        (fun _ => false) (fun _ => true) (fun _ => false)).1 ≤ trackDefaultMaxIters ∧
    loopGo (fun _ => true) (fun _ => true) (fun _ => false) 0 1 = (0, .stopFlag) ∧
    loopGo (fun _ => false) (fun _ => false) (fun _ => false) 0 1 = (1, .aborted) ∧
    loopGo (fun _ => false) (fun _ => true) (fun _ => true) 0 1 = (1, .done) := by
  refine ⟨(c9_tracking_loop_bound trackDefaultMaxIters _ _ _).1, ?_, ?_, ?_⟩
  · exact (c9_tracking_loop_bound 1 (fun _ => true) (fun _ => true)
      (fun _ => false)).2.2.2.1 0 0 rfl
  · exact (c9_tracking_loop_bound 1 (fun _ => false) (fun _ => false)
      (fun _ => false)).2.2.2.2.1 0 0 rfl rfl
  · exact (c9_tracking_loop_bound 1 (fun _ => false) (fun _ => true)
      (fun _ => true)).2.2.2.2.2 0 0 rfl rfl rfl

/-! ## Track view task creation (`TrackMovieView.start_auto_update`,
discord_bot.py:716-737; `TrackSeriesView.start_auto_update`,
discord_bot.py:780-799)

The view records the message id first, then returns without creating a task
when `self._task` exists and is not done; otherwise it creates a fresh task.
The state keeps every task the view ever created, newest first, as done
flags; `self._task` is the head. -/

structure TrackerState where
  tasks : List Bool
  messageId : Option Nat
  deriving DecidableEq, Repr

/-- The task list after the guard `if self._task and not self._task.done():
return`: unchanged when the current task exists and is not done, otherwise a
fresh not-done task becomes current. -/
def startTasks : List Bool → List Bool
  | false :: rest => false :: rest
  | tasks => false :: tasks

def startAutoUpdate (st : TrackerState) (msgId : Nat) : TrackerState :=
  { tasks := startTasks st.tasks, messageId := some msgId }

/-- An external completion event: task `i` (0 = current) finishes. -/
def finishTask (st : TrackerState) (i : Nat) : TrackerState :=
  { st with tasks := st.tasks.set i true }

/-- At most the head task can be live: every older task is done. -/
def tailAllDone (st : TrackerState) : Prop :=
  ∀ d ∈ st.tasks.drop 1, d = true

def liveTasks (st : TrackerState) : Nat :=
  (st.tasks.filter (fun d => !d)).length

theorem filter_not_done_of_all_done :
    ∀ l : List Bool, (∀ d ∈ l, d = true) → l.filter (fun d => !d) = [] := by
  intro l
  induction l with
  | nil => intro _; rfl
  | cons x xs ih =>
    intro h
    have hx := h x (List.mem_cons_self _ _)
    subst hx
    show xs.filter (fun d => !d) = []
    exact ih (fun d hd => h d (List.mem_cons_of_mem _ hd))

/-! ## Claim C10 -/

/-- C10.  Single-poller invariant: calling `start_auto_update` while the
current task exists and is not done records the new message id and creates no
second task; task creation and task completion preserve the invariant that
every non-current task is done, which bounds the number of live polling tasks
by one (and holds initially). -/
theorem c10_single_poller :
    (∀ (st : TrackerState) (m : Nat) (ts : List Bool), st.tasks = false :: ts →
        startAutoUpdate st m = { st with messageId := some m }) ∧
    (∀ (st : TrackerState) (m : Nat), tailAllDone st →
        tailAllDone (startAutoUpdate st m)) ∧
    (∀ (st : TrackerState) (i : Nat), tailAllDone st →
        tailAllDone (finishTask st i)) ∧
    (∀ st : TrackerState, tailAllDone st → liveTasks st ≤ 1) ∧
    tailAllDone ⟨[], none⟩ := by
  refine ⟨?_, ?_, ?_, ?_, ?_⟩
  · intro st m ts hts
    simp only [startAutoUpdate, hts, startTasks]
  · intro st m hst
    show ∀ d ∈ (startTasks st.tasks).drop 1, d = true
    cases hts : st.tasks with
    | nil =>
      intro d hd
      exact absurd (show d ∈ ([] : List Bool) from hd) (List.not_mem_nil d)
    | cons b tl =>
      have htl : ∀ d ∈ tl, d = true := by
        intro d hd
        refine hst d ?_
        rw [hts]
        simpa using hd
      cases b with
      | false =>
        intro d hd
        exact htl d (show d ∈ tl from hd)
      | true =>
        intro d hd
        rcases List.mem_cons.mp (show d ∈ true :: tl from hd) with rfl | hd'
        · rfl
        · exact htl d hd'
  · intro st i hst
    show ∀ d ∈ (st.tasks.set i true).drop 1, d = true
    cases hts : st.tasks with
    | nil =>
      intro d hd
      exact absurd (show d ∈ ([] : List Bool) from hd) (List.not_mem_nil d)
    | cons b tl =>
      have htl : ∀ d ∈ tl, d = true := by
        intro d hd
        refine hst d ?_
        rw [hts]
        simpa using hd
      cases i with
      | zero =>
        intro d hd
        exact htl d (show d ∈ tl from hd)
      | succ j =>
        intro d hd
        rcases List.mem_or_eq_of_mem_set (show d ∈ tl.set j true from hd) with hd' | rfl
        · exact htl d hd'
        · rfl
  · intro st hst
    show (st.tasks.filter (fun d => !d)).length ≤ 1
    cases hts : st.tasks with
    | nil => simp
    | cons b tl =>
      have htl : ∀ d ∈ tl, d = true := by
        intro d hd
        refine hst d ?_
        rw [hts]
        simpa using hd
      have hfil := filter_not_done_of_all_done tl htl
      cases b <;> simp [List.filter_cons, hfil]
  · intro d hd
    exact absurd (show d ∈ ([] : List Bool) from hd) (List.not_mem_nil d)

def exTracker : TrackerState := ⟨[false], some 1⟩

/-- C10 witness: a view with one live task: a second `start_auto_update` call
only records the new message id, and the live-task bound holds. -/
theorem c10_single_poller_witness :
    startAutoUpdate exTracker 2 = { exTracker with messageId := some 2 } ∧
    liveTasks exTracker ≤ 1 := by
  have hinv : tailAllDone exTracker := by
    intro d hd
    exact absurd (show d ∈ ([] : List Bool) from hd) (List.not_mem_nil d)
  exact ⟨c10_single_poller.1 exTracker 2 [] rfl,
    c10_single_poller.2.2.2.1 exTracker hinv⟩

end Slavarr
